import Mathlib

/-!
Shallow embedding of the pointer-to-quantized-value core of the Knobs
widget library (`src/knob.ts`, `src/slider.ts`, `src/types.ts`).

Numbers are modelled as rationals: every arithmetic step performed by the
source (division, multiplication, `Math.round`, `Math.min`, `Math.max`)
is exact on the inputs of interest, and `Math.round` on JavaScript numbers
agrees with Mathlib's `round` (both are `⌊x + 1/2⌋`).  Non-finite
JavaScript values (NaN, ±Infinity), which matter only for the input
validation paths, are modelled separately by the `JSNum` type below.

An `Option` field models a field of a TypeScript `Partial<...>` options
object that the caller omitted.
-/

namespace Knobs

/-- Knob mode, mirroring the string union `KnobMode` in `types.ts`. -/
inductive KnobMode where
  | bounded
  | minOnly
  | infinite
deriving DecidableEq

/-- Process-wide sensitivity defaults (`globalConfig` in `types.ts`). -/
structure GlobalConfig where
  pixelsPerFullRotation : ℚ
  shiftMultiplier : ℚ
  ctrlMultiplier : ℚ
deriving DecidableEq

/-- The initial contents of `globalConfig` in `types.ts`. -/
def initialGlobalConfig : GlobalConfig :=
  { pixelsPerFullRotation := 400, shiftMultiplier := 4, ctrlMultiplier := 1/4 }

/-- A `Partial<GlobalConfig>` argument to `configureKnobs`. -/
structure GlobalConfigPatch where
  pixelsPerFullRotation : Option ℚ := none
  shiftMultiplier : Option ℚ := none
  ctrlMultiplier : Option ℚ := none

/-- Source: `configureKnobs` in `types.ts` performs
`Object.assign(globalConfig, config)`: fields present in the patch
overwrite the current global value.  The embedding is state passing: it
returns the new global configuration. -/
def configureKnobs (g : GlobalConfig) (p : GlobalConfigPatch) : GlobalConfig :=
  { pixelsPerFullRotation := p.pixelsPerFullRotation.getD g.pixelsPerFullRotation,
    shiftMultiplier := p.shiftMultiplier.getD g.shiftMultiplier,
    ctrlMultiplier := p.ctrlMultiplier.getD g.ctrlMultiplier }

/-- The fields of `Partial<KnobOptions>` (from `types.ts`) that the value
engine reads; a `none` field was omitted by the caller.  `toggleable` and
`powered` are read by `knob.ts` (they are absent from the copy of
`types.ts` in the repository snapshot; the README documents them with
defaults `false` and `true`). -/
structure KnobOptions where
  mode : Option KnobMode := none
  value : Option ℚ := none
  min : Option ℚ := none
  max : Option ℚ := none
  step : Option ℚ := none
  startAngle : Option ℚ := none
  endAngle : Option ℚ := none
  toggleable : Option Bool := none
  powered : Option Bool := none
  pixelsPerFullRotation : Option ℚ := none
  shiftMultiplier : Option ℚ := none
  ctrlMultiplier : Option ℚ := none

/-- The result of `{ ...DEFAULT_OPTIONS, ...options }`: every engine field
has a value except `min`/`max`, which stay absent unless supplied (the
constructor defaults them per mode afterwards). -/
structure MergedKnobOptions where
  mode : KnobMode
  value : ℚ
  min : Option ℚ
  max : Option ℚ
  step : ℚ
  startAngle : ℚ
  endAngle : ℚ
  toggleable : Bool
  powered : Bool
deriving DecidableEq

/-- The engine-relevant fields of `DEFAULT_OPTIONS` in `types.ts`
(`mode: 'bounded', value: 0, step: 1, startAngle: -135, endAngle: 135`,
no `min`/`max`); `toggleable := false` and `powered := true` per the
README's option table. -/
def DEFAULT_OPTIONS : MergedKnobOptions :=
  { mode := KnobMode.bounded, value := 0, min := none, max := none,
    step := 1, startAngle := -135, endAngle := 135,
    toggleable := false, powered := true }

/-- Source: `this.options = { ...DEFAULT_OPTIONS, ...options }` in the
`Knob` constructor. -/
def mergeKnobOptions (o : KnobOptions) : MergedKnobOptions :=
  { mode := o.mode.getD DEFAULT_OPTIONS.mode,
    value := o.value.getD DEFAULT_OPTIONS.value,
    min := o.min,
    max := o.max,
    step := o.step.getD DEFAULT_OPTIONS.step,
    startAngle := o.startAngle.getD DEFAULT_OPTIONS.startAngle,
    endAngle := o.endAngle.getD DEFAULT_OPTIONS.endAngle,
    toggleable := o.toggleable.getD DEFAULT_OPTIONS.toggleable,
    powered := o.powered.getD DEFAULT_OPTIONS.powered }

/-- Source: the mode-dependent `min`/`max` defaulting in the `Knob`
constructor (`this.options.min = this.options.min ?? 0`, etc.). -/
def resolveBounds (m : MergedKnobOptions) : MergedKnobOptions :=
  match m.mode with
  | KnobMode.bounded => { m with min := some (m.min.getD 0), max := some (m.max.getD 10) }
  | KnobMode.minOnly => { m with min := some (m.min.getD 0) }
  | KnobMode.infinite => m

/-- Immutable per-knob configuration: merged options plus the sensitivity
values resolved once at construction (`options.x ?? globalConfig.x`). -/
structure KnobConfig where
  opts : MergedKnobOptions
  pixelsPerFullRotation : ℚ
  shiftMultiplier : ℚ
  ctrlMultiplier : ℚ
deriving DecidableEq

/-- Mutable state of a `Knob` instance (the fields the value engine
reads and writes). -/
structure KnobState where
  cfg : KnobConfig
  value : ℚ
  rawValue : ℚ
  angle : ℚ
  powered : Bool
deriving DecidableEq

/-- Source: `Knob.valueToAngle`.  `this.options.min!`/`max!` (non-null
assertions, only reached after the constructor made them `some`) are
modelled by `Option.getD 0`. -/
def valueToAngle (cfg : KnobConfig) (v : ℚ) : ℚ :=
  match cfg.opts.mode with
  | KnobMode.infinite => v * (270 / 10)
  | KnobMode.minOnly => ((v - cfg.opts.min.getD 0) * 270) / 10
  | KnobMode.bounded =>
      let valueRange := cfg.opts.max.getD 0 - cfg.opts.min.getD 0
      let angleRange := cfg.opts.endAngle - cfg.opts.startAngle
      cfg.opts.startAngle + ((v - cfg.opts.min.getD 0) / valueRange) * angleRange

/-- Source: the `Knob` constructor (container lookup and rendering are
out of scope).  Sensitivity is resolved from the raw user `options`
(not the merged ones), exactly as in `knob.ts` lines 65-67. -/
def mkKnob (options : KnobOptions) (g : GlobalConfig) : KnobState :=
  let merged := resolveBounds (mergeKnobOptions options)
  let cfg : KnobConfig :=
    { opts := merged,
      pixelsPerFullRotation := options.pixelsPerFullRotation.getD g.pixelsPerFullRotation,
      shiftMultiplier := options.shiftMultiplier.getD g.shiftMultiplier,
      ctrlMultiplier := options.ctrlMultiplier.getD g.ctrlMultiplier }
  { cfg := cfg,
    value := merged.value,
    rawValue := merged.value,
    angle := valueToAngle cfg merged.value,
    powered := merged.powered }

/-- Source: `Math.round(raw / step) * step` in `updateValue`.  On finite
values JavaScript's `Math.round` is `⌊x + 1/2⌋`, which is Mathlib's
`round`. -/
def quantize (step x : ℚ) : ℚ :=
  ((round (x / step) : ℤ) : ℚ) * step

/-- Source: the mode `switch` at the top of `Knob.updateValue` that
computes the new `rawValue`. -/
def knobClamp (cfg : KnobConfig) (x : ℚ) : ℚ :=
  match cfg.opts.mode with
  | KnobMode.infinite => x
  | KnobMode.minOnly => max (cfg.opts.min.getD 0) x
  | KnobMode.bounded => max (cfg.opts.min.getD 0) (min (cfg.opts.max.getD 0) x)

/-- Source: `Knob.updateValue` (clamp the raw value per mode, quantize it
for the external value, recompute the angle from the raw value). -/
def knobUpdateValue (s : KnobState) (newValue : ℚ) : KnobState :=
  let raw := knobClamp s.cfg newValue
  { s with
    rawValue := raw,
    value := quantize s.cfg.opts.step raw,
    angle := valueToAngle s.cfg raw }

/-- Payload of a knob change notification (`KnobChangeEvent`). -/
structure KnobChangeEvent where
  value : ℚ
  previousValue : ℚ
  angle : ℚ
  powered : Bool
deriving DecidableEq

/-- Payload of a knob toggle notification (`KnobToggleEvent`). -/
structure KnobToggleEvent where
  powered : Bool
  value : ℚ
deriving DecidableEq

/-- Source: `Knob.getValueRange`. -/
def knobValueRange (cfg : KnobConfig) : ℚ :=
  match cfg.opts.mode with
  | KnobMode.bounded => cfg.opts.max.getD 0 - cfg.opts.min.getD 0
  | KnobMode.minOnly => 10
  | KnobMode.infinite => 10

/-- Source: the value-delta computation inside `Knob.processDrag`
(movement fraction, modifier multipliers, scaled by the value range). -/
def knobDragDelta (cfg : KnobConfig) (deltaY : ℚ) (shiftKey ctrlKey : Bool) : ℚ :=
  let f0 := deltaY / cfg.pixelsPerFullRotation
  let f1 := if shiftKey then f0 * cfg.shiftMultiplier else f0
  let f2 := if ctrlKey then f1 * cfg.ctrlMultiplier else f1
  f2 * knobValueRange cfg

/-- Source: `Knob.processDrag`.  Returns the new state and the change
notification, if one fired.  The first line is the toggle gate:
`if (!this.powered && this.options.toggleable) return`. -/
def knobProcessDrag (s : KnobState) (deltaY : ℚ) (shiftKey ctrlKey : Bool) :
    KnobState × Option KnobChangeEvent :=
  if !s.powered && s.cfg.opts.toggleable then (s, none)
  else
    let previousValue := s.value
    let s' := knobUpdateValue s (s.rawValue + knobDragDelta s.cfg deltaY shiftKey ctrlKey)
    if s'.value ≠ previousValue then
      (s', some { value := s'.value, previousValue := previousValue,
                  angle := s'.angle, powered := s'.powered })
    else (s', none)

/-- Source: `Knob.setValue`.  Note: unlike `Slider.setValue`, the source
performs no finiteness validation here; on the rational (finite) fragment
the two coincide. -/
def knobSetValue (s : KnobState) (v : ℚ) : KnobState × Option KnobChangeEvent :=
  let previousValue := s.value
  let s' := knobUpdateValue s v
  if s'.value ≠ previousValue then
    (s', some { value := s'.value, previousValue := previousValue,
                angle := s'.angle, powered := s'.powered })
  else (s', none)

/-- Source: `Knob.setPowered`. -/
def knobSetPowered (s : KnobState) (p : Bool) : KnobState × Option KnobToggleEvent :=
  if s.powered ≠ p then
    ({ s with powered := p }, some { powered := p, value := s.value })
  else (s, none)

/-- Source: `Knob.toggle`. -/
def knobToggle (s : KnobState) : KnobState × Option KnobToggleEvent :=
  knobSetPowered s (!s.powered)

/-- One externally triggered operation on a knob after construction. -/
inductive KnobOp where
  | drag (deltaY : ℚ) (shiftKey ctrlKey : Bool)
  | set (v : ℚ)
  | setPow (p : Bool)
  | tog
deriving DecidableEq

/-- State after one operation (notifications discarded). -/
def knobStep (s : KnobState) : KnobOp → KnobState
  | KnobOp.drag d sk ck => (knobProcessDrag s d sk ck).1
  | KnobOp.set v => (knobSetValue s v).1
  | KnobOp.setPow p => (knobSetPowered s p).1
  | KnobOp.tog => (knobToggle s).1

/-- State after a sequence of operations. -/
def knobRun (s : KnobState) (ops : List KnobOp) : KnobState :=
  ops.foldl knobStep s

/-- State after a sequence of drag movement samples
(deltaY, shiftKey, ctrlKey). -/
def knobRunDrags (s : KnobState) (l : List (ℚ × Bool × Bool)) : KnobState :=
  l.foldl (fun t p => (knobProcessDrag t p.1 p.2.1 p.2.2).1) s

/-- The fields of `Partial<SliderOptions>` (from `types.ts`) that the
value engine reads. -/
structure SliderOptions where
  value : Option ℚ := none
  min : Option ℚ := none
  max : Option ℚ := none
  step : Option ℚ := none
  length : Option ℚ := none
  shiftMultiplier : Option ℚ := none
  ctrlMultiplier : Option ℚ := none
  toggleState : Option Bool := none

/-- The result of `{ ...DEFAULT_SLIDER_OPTIONS, ...options }` for the
engine fields. -/
structure MergedSliderOptions where
  value : ℚ
  min : ℚ
  max : ℚ
  step : ℚ
  length : ℚ
  toggleState : Bool
deriving DecidableEq

/-- The engine-relevant fields of `DEFAULT_SLIDER_OPTIONS` in `types.ts`
(`value: 0, min: 0, max: 10, step: 0.1, length: 150,
toggleState: false`). -/
def DEFAULT_SLIDER_OPTIONS : MergedSliderOptions :=
  { value := 0, min := 0, max := 10, step := 1/10, length := 150,
    toggleState := false }

/-- Source: `this.options = { ...DEFAULT_SLIDER_OPTIONS, ...options }`
in the `Slider` constructor. -/
def mergeSliderOptions (o : SliderOptions) : MergedSliderOptions :=
  { value := o.value.getD DEFAULT_SLIDER_OPTIONS.value,
    min := o.min.getD DEFAULT_SLIDER_OPTIONS.min,
    max := o.max.getD DEFAULT_SLIDER_OPTIONS.max,
    step := o.step.getD DEFAULT_SLIDER_OPTIONS.step,
    length := o.length.getD DEFAULT_SLIDER_OPTIONS.length,
    toggleState := o.toggleState.getD DEFAULT_SLIDER_OPTIONS.toggleState }

/-- Immutable per-slider configuration.  `trackLength` is what the
renderer's `getTrackLength()` returns, namely the merged `length`
option. -/
structure SliderConfig where
  opts : MergedSliderOptions
  trackLength : ℚ
  shiftMultiplier : ℚ
  ctrlMultiplier : ℚ
deriving DecidableEq

/-- Mutable state of a `Slider` instance. -/
structure SliderState where
  cfg : SliderConfig
  value : ℚ
  rawValue : ℚ
  toggleState : Bool
deriving DecidableEq

/-- Payload of a slider change notification (`SliderChangeEvent`). -/
structure SliderChangeEvent where
  value : ℚ
  previousValue : ℚ
deriving DecidableEq

/-- Payload of a slider toggle notification (`ToggleChangeEvent`). -/
structure ToggleChangeEvent where
  state : Bool
  previousState : Bool
deriving DecidableEq

/-- Source: the `Slider` constructor (rendering out of scope; the
renderer's `getTrackLength()` returns `this.options.length`). -/
def mkSlider (options : SliderOptions) (g : GlobalConfig) : SliderState :=
  let merged := mergeSliderOptions options
  let cfg : SliderConfig :=
    { opts := merged,
      trackLength := merged.length,
      shiftMultiplier := options.shiftMultiplier.getD g.shiftMultiplier,
      ctrlMultiplier := options.ctrlMultiplier.getD g.ctrlMultiplier }
  { cfg := cfg,
    value := merged.value,
    rawValue := merged.value,
    toggleState := merged.toggleState }

/-- Source: the clamp in `Slider.updateValue`
(`Math.max(min, Math.min(max, newValue))`). -/
def sliderClamp (cfg : SliderConfig) (x : ℚ) : ℚ :=
  max cfg.opts.min (min cfg.opts.max x)

/-- Source: `Slider.updateValue`. -/
def sliderUpdateValue (s : SliderState) (newValue : ℚ) : SliderState :=
  let raw := sliderClamp s.cfg newValue
  { s with rawValue := raw, value := quantize s.cfg.opts.step raw }

/-- Source: the value-delta computation inside `Slider.processDrag`
(`(deltaY / trackLength) * (max - min)`, then the modifier
multipliers). -/
def sliderDragDelta (cfg : SliderConfig) (deltaY : ℚ) (shiftKey ctrlKey : Bool) : ℚ :=
  let d0 := (deltaY / cfg.trackLength) * (cfg.opts.max - cfg.opts.min)
  let d1 := if shiftKey then d0 * cfg.shiftMultiplier else d0
  if ctrlKey then d1 * cfg.ctrlMultiplier else d1

/-- Source: `Slider.processDrag`. -/
def sliderProcessDrag (s : SliderState) (deltaY : ℚ) (shiftKey ctrlKey : Bool) :
    SliderState × Option SliderChangeEvent :=
  let previousValue := s.value
  let s' := sliderUpdateValue s (s.rawValue + sliderDragDelta s.cfg deltaY shiftKey ctrlKey)
  if s'.value ≠ previousValue then
    (s', some { value := s'.value, previousValue := previousValue })
  else (s', none)

/-- Source: `Slider.setValue` restricted to finite arguments (the
finiteness guard passes on every rational; the full guard is modelled on
`JSNum` below). -/
def sliderSetValue (s : SliderState) (v : ℚ) : SliderState × Option SliderChangeEvent :=
  let previousValue := s.value
  let s' := sliderUpdateValue s v
  if s'.value ≠ previousValue then
    (s', some { value := s'.value, previousValue := previousValue })
  else (s', none)

/-- Source: `Slider.setToggle`. -/
def sliderSetToggle (s : SliderState) (state : Bool) :
    SliderState × Option ToggleChangeEvent :=
  if s.toggleState = state then (s, none)
  else
    ({ s with toggleState := state },
     some { state := state, previousState := s.toggleState })

/-- Source: `Slider.handleToggleClick`. -/
def sliderHandleToggleClick (s : SliderState) :
    SliderState × Option ToggleChangeEvent :=
  ({ s with toggleState := !s.toggleState },
   some { state := !s.toggleState, previousState := s.toggleState })

/-- One externally triggered operation on a slider after construction. -/
inductive SliderOp where
  | drag (deltaY : ℚ) (shiftKey ctrlKey : Bool)
  | set (v : ℚ)
  | setTog (state : Bool)
  | togClick
deriving DecidableEq

/-- State after one slider operation (notifications discarded). -/
def sliderStep (s : SliderState) : SliderOp → SliderState
  | SliderOp.drag d sk ck => (sliderProcessDrag s d sk ck).1
  | SliderOp.set v => (sliderSetValue s v).1
  | SliderOp.setTog b => (sliderSetToggle s b).1
  | SliderOp.togClick => (sliderHandleToggleClick s).1

/-- State after a sequence of slider operations. -/
def sliderRun (s : SliderState) (ops : List SliderOp) : SliderState :=
  ops.foldl sliderStep s

/-!
JavaScript number model for the non-finite paths.  Only the operations
that the `setValue`/`updateValue` code path performs are modelled:
`Math.min`, `Math.max`, division, `Math.round`, multiplication,
`Number.isFinite` and strict inequality comparison.  Negative zero is
not distinguished from zero (no claim depends on it).
-/

/-- A JavaScript number: finite (rational), NaN, or a signed infinity. -/
inductive JSNum where
  | num (q : ℚ)
  | nan
  | posInf
  | negInf
deriving DecidableEq

/-- JavaScript `Number.isFinite`. -/
def jsIsFinite : JSNum → Bool
  | JSNum.num _ => true
  | _ => false

/-- JavaScript `Math.min` (NaN-propagating). -/
def jsMin : JSNum → JSNum → JSNum
  | JSNum.nan, _ => JSNum.nan
  | _, JSNum.nan => JSNum.nan
  | JSNum.negInf, _ => JSNum.negInf
  | _, JSNum.negInf => JSNum.negInf
  | JSNum.posInf, y => y
  | x, JSNum.posInf => x
  | JSNum.num a, JSNum.num b => JSNum.num (min a b)

/-- JavaScript `Math.max` (NaN-propagating). -/
def jsMax : JSNum → JSNum → JSNum
  | JSNum.nan, _ => JSNum.nan
  | _, JSNum.nan => JSNum.nan
  | JSNum.posInf, _ => JSNum.posInf
  | _, JSNum.posInf => JSNum.posInf
  | JSNum.negInf, y => y
  | x, JSNum.negInf => x
  | JSNum.num a, JSNum.num b => JSNum.num (max a b)

/-- JavaScript division. -/
def jsDiv : JSNum → JSNum → JSNum
  | JSNum.nan, _ => JSNum.nan
  | _, JSNum.nan => JSNum.nan
  | JSNum.num a, JSNum.num b =>
      if b = 0 then
        if a = 0 then JSNum.nan
        else if 0 < a then JSNum.posInf
        else JSNum.negInf
      else JSNum.num (a / b)
  | JSNum.posInf, JSNum.num b => if b < 0 then JSNum.negInf else JSNum.posInf
  | JSNum.negInf, JSNum.num b => if b < 0 then JSNum.posInf else JSNum.negInf
  | JSNum.num _, JSNum.posInf => JSNum.num 0
  | JSNum.num _, JSNum.negInf => JSNum.num 0
  | _, _ => JSNum.nan

/-- JavaScript multiplication. -/
def jsMul : JSNum → JSNum → JSNum
  | JSNum.nan, _ => JSNum.nan
  | _, JSNum.nan => JSNum.nan
  | JSNum.num a, JSNum.num b => JSNum.num (a * b)
  | JSNum.posInf, JSNum.num b =>
      if b = 0 then JSNum.nan else if 0 < b then JSNum.posInf else JSNum.negInf
  | JSNum.num a, JSNum.posInf =>
      if a = 0 then JSNum.nan else if 0 < a then JSNum.posInf else JSNum.negInf
  | JSNum.negInf, JSNum.num b =>
      if b = 0 then JSNum.nan else if 0 < b then JSNum.negInf else JSNum.posInf
  | JSNum.num a, JSNum.negInf =>
      if a = 0 then JSNum.nan else if 0 < a then JSNum.negInf else JSNum.posInf
  | JSNum.posInf, JSNum.posInf => JSNum.posInf
  | JSNum.posInf, JSNum.negInf => JSNum.negInf
  | JSNum.negInf, JSNum.posInf => JSNum.negInf
  | JSNum.negInf, JSNum.negInf => JSNum.posInf

/-- JavaScript `Math.round` (`⌊x + 1/2⌋` on finite values; NaN and the
infinities pass through). -/
def jsRound : JSNum → JSNum
  | JSNum.num q => JSNum.num ((round q : ℤ) : ℚ)
  | x => x

/-- JavaScript strict inequality `x !== y` (true whenever either side is
NaN, even if both are). -/
def jsStrictNe : JSNum → JSNum → Bool
  | JSNum.nan, _ => true
  | _, JSNum.nan => true
  | x, y => decide (x ≠ y)

/-- Knob state with JavaScript-number value fields, for the non-finite
input paths. -/
structure KnobStateJS where
  cfg : KnobConfig
  value : JSNum
  rawValue : JSNum
  powered : Bool
deriving DecidableEq

/-- View of a (finite-valued) knob state as a JavaScript-number state. -/
def knobStateToJS (s : KnobState) : KnobStateJS :=
  { cfg := s.cfg, value := JSNum.num s.value, rawValue := JSNum.num s.rawValue,
    powered := s.powered }

/-- Source: the clamp in `Knob.updateValue`, on JavaScript numbers. -/
def knobClampJS (cfg : KnobConfig) (x : JSNum) : JSNum :=
  match cfg.opts.mode with
  | KnobMode.infinite => x
  | KnobMode.minOnly => jsMax (JSNum.num (cfg.opts.min.getD 0)) x
  | KnobMode.bounded =>
      jsMax (JSNum.num (cfg.opts.min.getD 0)) (jsMin (JSNum.num (cfg.opts.max.getD 0)) x)

/-- Source: `Knob.updateValue` on JavaScript numbers (the angle update is
irrelevant to these claims and omitted). -/
def knobUpdateValueJS (s : KnobStateJS) (newValue : JSNum) : KnobStateJS :=
  let raw := knobClampJS s.cfg newValue
  { s with
    rawValue := raw,
    value := jsMul (jsRound (jsDiv raw (JSNum.num s.cfg.opts.step)))
                   (JSNum.num s.cfg.opts.step) }

/-- Source: `Knob.setValue` on JavaScript numbers.  Faithful to the
source, it performs NO finiteness validation.  The second component
records whether a change notification fired. -/
def knobSetValueJS (s : KnobStateJS) (v : JSNum) : KnobStateJS × Bool :=
  let previousValue := s.value
  let s' := knobUpdateValueJS s v
  (s', jsStrictNe s'.value previousValue)

/-- Slider state with JavaScript-number value fields. -/
structure SliderStateJS where
  cfg : SliderConfig
  value : JSNum
  rawValue : JSNum
deriving DecidableEq

/-- Source: `Slider.updateValue` on JavaScript numbers. -/
def sliderUpdateValueJS (s : SliderStateJS) (newValue : JSNum) : SliderStateJS :=
  let raw := jsMax (JSNum.num s.cfg.opts.min) (jsMin (JSNum.num s.cfg.opts.max) newValue)
  { s with
    rawValue := raw,
    value := jsMul (jsRound (jsDiv raw (JSNum.num s.cfg.opts.step)))
                   (JSNum.num s.cfg.opts.step) }

/-- Source: `Slider.setValue` on JavaScript numbers, including its
finiteness guard (`if (typeof value !== 'number' || !Number.isFinite(value))
return` after a console warning).  The second component records whether a
change notification fired. -/
def sliderSetValueJS (s : SliderStateJS) (v : JSNum) : SliderStateJS × Bool :=
  if !(jsIsFinite v) then (s, false)
  else
    let previousValue := s.value
    let s' := sliderUpdateValueJS s v
    (s', jsStrictNe s'.value previousValue)

/-!
General lemmas about rounding and quantization.
-/

/-- Evaluation rule for `round` at a concrete rational. -/
lemma round_eq_of {a : ℚ} {n : ℤ} (h1 : (n : ℚ) ≤ a + 1/2) (h2 : a + 1/2 < (n : ℚ) + 1) :
    round a = n := by
  rw [round_eq]
  exact Int.floor_eq_iff.mpr ⟨by exact_mod_cast h1, by exact_mod_cast h2⟩

/-- Mathlib's `round` is monotone. -/
lemma round_mono_rat {x y : ℚ} (h : x ≤ y) : round x ≤ round y := by
  rw [round_eq, round_eq]
  exact Int.floor_mono (by linarith)

/-- The rounded value overshoots by at most a half. -/
lemma round_le_add_half (x : ℚ) : ((round x : ℤ) : ℚ) ≤ x + 1/2 := by
  rw [round_eq]
  exact_mod_cast Int.floor_le (x + 1/2)

/-- The rounded value undershoots by strictly less than a half. -/
lemma sub_half_lt_round (x : ℚ) : x - 1/2 < ((round x : ℤ) : ℚ) := by
  rw [round_eq]
  have h := Int.lt_floor_add_one (x + 1/2)
  push_cast at h ⊢
  linarith

/-- Quantization always lands on an integer multiple of the step. -/
lemma quantize_eq_int_mul (step x : ℚ) : ∃ n : ℤ, quantize step x = (n : ℚ) * step :=
  ⟨round (x / step), rfl⟩

/-- Quantization moves a point by at most half a step. -/
lemma abs_quantize_sub_le {step : ℚ} (hs : 0 < step) (x : ℚ) :
    |quantize step x - x| ≤ step / 2 := by
  have hx : x / step * step = x := div_mul_cancel₀ x hs.ne'
  have h1 : ((round (x / step) : ℤ) : ℚ) ≤ x / step + 1/2 := round_le_add_half (x / step)
  have h2 : x / step - 1/2 < ((round (x / step) : ℤ) : ℚ) := sub_half_lt_round (x / step)
  have hq : quantize step x - x = (((round (x / step) : ℤ) : ℚ) - x / step) * step := by
    rw [quantize, sub_mul, hx]
  rw [hq, abs_mul, abs_of_pos hs]
  have : |((round (x / step) : ℤ) : ℚ) - x / step| ≤ 1/2 := abs_le.mpr ⟨by linarith, by linarith⟩
  calc |((round (x / step) : ℤ) : ℚ) - x / step| * step ≤ (1/2) * step :=
        mul_le_mul_of_nonneg_right this hs.le
    _ = step / 2 := by ring

/-- Quantization is idempotent. -/
lemma quantize_idem (step x : ℚ) : quantize step (quantize step x) = quantize step x := by
  by_cases hs : step = 0
  · simp [quantize, hs]
  · have : quantize step x / step = ((round (x / step) : ℤ) : ℚ) := by
      rw [quantize, mul_div_cancel_right₀ _ hs]
    rw [quantize, this, round_intCast]
    rfl

/-- Quantization is monotone for a positive step. -/
lemma quantize_mono {step : ℚ} (hs : 0 < step) {x y : ℚ} (h : x ≤ y) :
    quantize step x ≤ quantize step y := by
  have hdiv : x / step ≤ y / step := by gcongr
  exact mul_le_mul_of_nonneg_right (by exact_mod_cast round_mono_rat hdiv) hs.le

/-- Two multiples of a positive step strictly closer than one step apart
are equal. -/
lemma quantize_eq_of_close {step a b : ℚ} (hs : 0 < step)
    (ha : ∃ m : ℤ, a = (m : ℚ) * step) (hb : ∃ n : ℤ, b = (n : ℚ) * step)
    (h1 : a ≤ b) (h2 : b < a + step) : a = b := by
  obtain ⟨m, rfl⟩ := ha
  obtain ⟨n, rfl⟩ := hb
  have hm : m ≤ n := by
    have := (mul_le_mul_right hs).mp h1
    exact_mod_cast this
  have hn : n < m + 1 := by
    have h2' : (n : ℚ) * step < ((m : ℚ) + 1) * step := by ring_nf; ring_nf at h2; linarith
    have := (mul_lt_mul_right hs).mp h2'
    exact_mod_cast this
  have : m = n := le_antisymm hm (by omega)
  rw [this]

/-- Re-quantizing after clamping a quantized value from below is stable. -/
lemma quantize_max_stable {step lo y : ℚ} (hs : 0 < step) (h1 : lo ≤ y) :
    quantize step (max lo (quantize step y)) = quantize step y := by
  rcases le_or_lt lo (quantize step y) with hlq | hlq
  · rw [max_eq_right hlq, quantize_idem]
  · rw [max_eq_left hlq.le]
    have hmono : quantize step lo ≤ quantize step y := quantize_mono hs h1
    have habs : |quantize step lo - lo| ≤ step / 2 := abs_quantize_sub_le hs lo
    have hlow : lo - step / 2 ≤ quantize step lo := by
      have := (abs_le.mp habs).1
      linarith
    exact quantize_eq_of_close hs (quantize_eq_int_mul step lo) (quantize_eq_int_mul step y)
      hmono (by linarith)

/-- Re-quantizing after clamping a quantized value from above is stable. -/
lemma quantize_min_stable {step hi y : ℚ} (hs : 0 < step) (h2 : y ≤ hi) :
    quantize step (min hi (quantize step y)) = quantize step y := by
  rcases le_or_lt (quantize step y) hi with hqh | hqh
  · rw [min_eq_right hqh, quantize_idem]
  · rw [min_eq_left hqh.le]
    have hmono : quantize step y ≤ quantize step hi := quantize_mono hs h2
    have habs : |quantize step hi - hi| ≤ step / 2 := abs_quantize_sub_le hs hi
    have hup : quantize step hi ≤ hi + step / 2 := by
      have := (abs_le.mp habs).2
      linarith
    exact (quantize_eq_of_close hs (quantize_eq_int_mul step y) (quantize_eq_int_mul step hi)
      hmono (by linarith)).symm

/-!
Invariants of the update path.
-/

/-- The knob state produced by every pass through `updateValue`: the raw
value respects the mode's bounds and the external value is the
quantization of the raw value. -/
def KnobQuantized (s : KnobState) : Prop :=
  s.value = quantize s.cfg.opts.step s.rawValue ∧
  (s.cfg.opts.mode = KnobMode.bounded →
     s.cfg.opts.min.getD 0 ≤ s.rawValue ∧ s.rawValue ≤ s.cfg.opts.max.getD 0) ∧
  (s.cfg.opts.mode = KnobMode.minOnly → s.cfg.opts.min.getD 0 ≤ s.rawValue)

/-- The slider state produced by every pass through `updateValue`. -/
def SliderQuantized (t : SliderState) : Prop :=
  t.value = quantize t.cfg.opts.step t.rawValue ∧
  t.cfg.opts.min ≤ t.rawValue ∧ t.rawValue ≤ t.cfg.opts.max

lemma knobClamp_bounds (cfg : KnobConfig)
    (hb : cfg.opts.mode = KnobMode.bounded → cfg.opts.min.getD 0 ≤ cfg.opts.max.getD 0)
    (x : ℚ) :
    (cfg.opts.mode = KnobMode.bounded →
       cfg.opts.min.getD 0 ≤ knobClamp cfg x ∧ knobClamp cfg x ≤ cfg.opts.max.getD 0) ∧
    (cfg.opts.mode = KnobMode.minOnly → cfg.opts.min.getD 0 ≤ knobClamp cfg x) := by
  constructor
  · intro hm
    unfold knobClamp
    rw [hm]
    exact ⟨le_max_left _ _, max_le (hb hm) (min_le_left _ _)⟩
  · intro hm
    unfold knobClamp
    rw [hm]
    exact le_max_left _ _

lemma knobUpdateValue_quantized (s : KnobState) (x : ℚ)
    (hb : s.cfg.opts.mode = KnobMode.bounded →
            s.cfg.opts.min.getD 0 ≤ s.cfg.opts.max.getD 0) :
    KnobQuantized (knobUpdateValue s x) := by
  refine ⟨rfl, ?_, ?_⟩
  · intro hm
    exact (knobClamp_bounds s.cfg hb x).1 hm
  · intro hm
    exact (knobClamp_bounds s.cfg hb x).2 hm

lemma knobProcessDrag_fst (s : KnobState) (d : ℚ) (sk ck : Bool) :
    (knobProcessDrag s d sk ck).1 =
      if !s.powered && s.cfg.opts.toggleable then s
      else knobUpdateValue s (s.rawValue + knobDragDelta s.cfg d sk ck) := by
  unfold knobProcessDrag
  split
  · rfl
  · dsimp only
    split <;> rfl

lemma knobSetValue_fst (s : KnobState) (v : ℚ) :
    (knobSetValue s v).1 = knobUpdateValue s v := by
  unfold knobSetValue
  dsimp only
  split <;> rfl

lemma knobSetPowered_fst (s : KnobState) (p : Bool) :
    (knobSetPowered s p).1 = if s.powered ≠ p then { s with powered := p } else s := by
  unfold knobSetPowered
  split <;> simp_all

lemma knobStep_cfg (s : KnobState) (op : KnobOp) : (knobStep s op).cfg = s.cfg := by
  cases op with
  | drag d sk ck =>
      rw [knobStep, knobProcessDrag_fst]
      split
      · rfl
      · rfl
  | set v =>
      rw [knobStep, knobSetValue_fst]
      rfl
  | setPow p =>
      rw [knobStep, knobSetPowered_fst]
      split <;> rfl
  | tog =>
      rw [knobStep]
      unfold knobToggle
      rw [knobSetPowered_fst]
      split <;> rfl

lemma knobStep_quantized {s : KnobState} (op : KnobOp)
    (hb : s.cfg.opts.mode = KnobMode.bounded →
            s.cfg.opts.min.getD 0 ≤ s.cfg.opts.max.getD 0)
    (hq : KnobQuantized s) : KnobQuantized (knobStep s op) := by
  cases op with
  | drag d sk ck =>
      rw [knobStep, knobProcessDrag_fst]
      split
      · exact hq
      · exact knobUpdateValue_quantized s _ hb
  | set v =>
      rw [knobStep, knobSetValue_fst]
      exact knobUpdateValue_quantized s v hb
  | setPow p =>
      rw [knobStep, knobSetPowered_fst]
      split
      · exact hq
      · exact hq
  | tog =>
      rw [knobStep]
      unfold knobToggle
      rw [knobSetPowered_fst]
      split
      · exact hq
      · exact hq

lemma knobRun_cfg (s : KnobState) (ops : List KnobOp) : (knobRun s ops).cfg = s.cfg := by
  induction ops generalizing s with
  | nil => rfl
  | cons op rest ih =>
      show (knobRun (knobStep s op) rest).cfg = s.cfg
      rw [ih, knobStep_cfg]

lemma knobRun_quantized {s : KnobState} (ops : List KnobOp)
    (hb : s.cfg.opts.mode = KnobMode.bounded →
            s.cfg.opts.min.getD 0 ≤ s.cfg.opts.max.getD 0)
    (hq : KnobQuantized s) : KnobQuantized (knobRun s ops) := by
  induction ops generalizing s with
  | nil => exact hq
  | cons op rest ih =>
      show KnobQuantized (knobRun (knobStep s op) rest)
      have hcfg := knobStep_cfg s op
      exact ih (by rw [hcfg]; exact hb) (knobStep_quantized op hb hq)

lemma sliderUpdateValue_quantized (t : SliderState) (y : ℚ)
    (hmm : t.cfg.opts.min ≤ t.cfg.opts.max) :
    SliderQuantized (sliderUpdateValue t y) := by
  refine ⟨rfl, le_max_left _ _, max_le hmm (min_le_left _ _)⟩

lemma sliderProcessDrag_fst (t : SliderState) (d : ℚ) (sk ck : Bool) :
    (sliderProcessDrag t d sk ck).1 =
      sliderUpdateValue t (t.rawValue + sliderDragDelta t.cfg d sk ck) := by
  unfold sliderProcessDrag
  dsimp only
  split <;> rfl

lemma sliderSetValue_fst (t : SliderState) (v : ℚ) :
    (sliderSetValue t v).1 = sliderUpdateValue t v := by
  unfold sliderSetValue
  dsimp only
  split <;> rfl

lemma sliderSetToggle_fst (t : SliderState) (b : Bool) :
    (sliderSetToggle t b).1 = if t.toggleState = b then t else { t with toggleState := b } := by
  unfold sliderSetToggle
  split <;> simp_all

lemma sliderStep_cfg (t : SliderState) (op : SliderOp) : (sliderStep t op).cfg = t.cfg := by
  cases op with
  | drag d sk ck => rw [sliderStep, sliderProcessDrag_fst]; rfl
  | set v => rw [sliderStep, sliderSetValue_fst]; rfl
  | setTog b =>
      rw [sliderStep, sliderSetToggle_fst]
      split <;> rfl
  | togClick => rfl

lemma sliderStep_quantized {t : SliderState} (op : SliderOp)
    (hmm : t.cfg.opts.min ≤ t.cfg.opts.max)
    (hq : SliderQuantized t) : SliderQuantized (sliderStep t op) := by
  cases op with
  | drag d sk ck =>
      rw [sliderStep, sliderProcessDrag_fst]
      exact sliderUpdateValue_quantized t _ hmm
  | set v =>
      rw [sliderStep, sliderSetValue_fst]
      exact sliderUpdateValue_quantized t v hmm
  | setTog b =>
      rw [sliderStep, sliderSetToggle_fst]
      split
      · exact hq
      · exact hq
  | togClick => exact hq

lemma sliderRun_cfg (t : SliderState) (ops : List SliderOp) :
    (sliderRun t ops).cfg = t.cfg := by
  induction ops generalizing t with
  | nil => rfl
  | cons op rest ih =>
      show (sliderRun (sliderStep t op) rest).cfg = t.cfg
      rw [ih, sliderStep_cfg]

lemma sliderRun_quantized {t : SliderState} (ops : List SliderOp)
    (hmm : t.cfg.opts.min ≤ t.cfg.opts.max)
    (hq : SliderQuantized t) : SliderQuantized (sliderRun t ops) := by
  induction ops generalizing t with
  | nil => exact hq
  | cons op rest ih =>
      show SliderQuantized (sliderRun (sliderStep t op) rest)
      have hcfg := sliderStep_cfg t op
      exact ih (by rw [hcfg]; exact hmm) (sliderStep_quantized op hmm hq)

lemma knobUpdateValue_rawValue (s : KnobState) (y : ℚ) :
    (knobUpdateValue s y).rawValue = knobClamp s.cfg y := rfl

lemma knobUpdateValue_value (s : KnobState) (y : ℚ) :
    (knobUpdateValue s y).value = quantize s.cfg.opts.step (knobClamp s.cfg y) := rfl

lemma sliderUpdateValue_rawValue (t : SliderState) (y : ℚ) :
    (sliderUpdateValue t y).rawValue = sliderClamp t.cfg y := rfl

lemma sliderUpdateValue_value (t : SliderState) (y : ℚ) :
    (sliderUpdateValue t y).value = quantize t.cfg.opts.step (sliderClamp t.cfg y) := rfl

lemma knobProcessDrag_gated {s : KnobState}
    (ht : s.cfg.opts.toggleable = true) (hp : s.powered = false)
    (d : ℚ) (sk ck : Bool) : knobProcessDrag s d sk ck = (s, none) := by
  unfold knobProcessDrag
  rw [hp, ht]
  simp

lemma knobRunDrags_gated (s : KnobState)
    (ht : s.cfg.opts.toggleable = true) (hp : s.powered = false)
    (l : List (ℚ × Bool × Bool)) : knobRunDrags s l = s := by
  induction l with
  | nil => rfl
  | cons p rest ih =>
      show knobRunDrags (knobProcessDrag s p.1 p.2.1 p.2.2).1 rest = s
      rw [knobProcessDrag_gated ht hp]
      exact ih

/-- C4: with a toggleable Knob powered off, every sequence of drag
movement samples leaves the external value and the raw value unchanged;
after `setPowered(true)`, each subsequent drag sample performs the normal
value update (`updateValue` on the raw value plus the drag delta). -/
theorem knob_toggle_gating (s : KnobState)
    (ht : s.cfg.opts.toggleable = true) (hp : s.powered = false) :
    (∀ l : List (ℚ × Bool × Bool),
       (knobRunDrags s l).value = s.value ∧ (knobRunDrags s l).rawValue = s.rawValue) ∧
    (knobSetPowered s true).1.powered = true ∧
    (∀ (d : ℚ) (sk ck : Bool),
       (knobProcessDrag (knobSetPowered s true).1 d sk ck).1 =
         knobUpdateValue (knobSetPowered s true).1
           ((knobSetPowered s true).1.rawValue +
            knobDragDelta (knobSetPowered s true).1.cfg d sk ck)) := by
  have hsp : (knobSetPowered s true).1 = { s with powered := true } := by
    rw [knobSetPowered_fst, if_pos]
    rw [hp]
    simp
  refine ⟨?_, ?_, ?_⟩
  · intro l
    rw [knobRunDrags_gated s ht hp l]
    exact ⟨rfl, rfl⟩
  · rw [hsp]
  · intro d sk ck
    rw [hsp, knobProcessDrag_fst]
    simp

/-- C5: for a drag sample whose candidate raw value is not clamped, the
raw-value delta with the fast (shift) modifier is `shiftMultiplier` times
the unmodified delta, the delta with the precise (ctrl) modifier is
`ctrlMultiplier` times the unmodified delta, and with both held the two
multipliers compose multiplicatively — for the Knob and for the Slider. -/
theorem modifier_scaling :
    (∀ (s : KnobState) (d : ℚ),
       (∀ sk ck : Bool,
          knobClamp s.cfg (s.rawValue + knobDragDelta s.cfg d sk ck) =
            s.rawValue + knobDragDelta s.cfg d sk ck) →
       (knobProcessDrag s d true false).1.rawValue - s.rawValue =
           s.cfg.shiftMultiplier *
             ((knobProcessDrag s d false false).1.rawValue - s.rawValue) ∧
       (knobProcessDrag s d false true).1.rawValue - s.rawValue =
           s.cfg.ctrlMultiplier *
             ((knobProcessDrag s d false false).1.rawValue - s.rawValue) ∧
       (knobProcessDrag s d true true).1.rawValue - s.rawValue =
           s.cfg.shiftMultiplier * (s.cfg.ctrlMultiplier *
             ((knobProcessDrag s d false false).1.rawValue - s.rawValue))) ∧
    (∀ (t : SliderState) (d : ℚ),
       (∀ sk ck : Bool,
          sliderClamp t.cfg (t.rawValue + sliderDragDelta t.cfg d sk ck) =
            t.rawValue + sliderDragDelta t.cfg d sk ck) →
       (sliderProcessDrag t d true false).1.rawValue - t.rawValue =
           t.cfg.shiftMultiplier *
             ((sliderProcessDrag t d false false).1.rawValue - t.rawValue) ∧
       (sliderProcessDrag t d false true).1.rawValue - t.rawValue =
           t.cfg.ctrlMultiplier *
             ((sliderProcessDrag t d false false).1.rawValue - t.rawValue) ∧
       (sliderProcessDrag t d true true).1.rawValue - t.rawValue =
           t.cfg.shiftMultiplier * (t.cfg.ctrlMultiplier *
             ((sliderProcessDrag t d false false).1.rawValue - t.rawValue))) := by
  constructor
  · intro s d hcl
    by_cases hg : (!s.powered && s.cfg.opts.toggleable) = true
    · have hall : ∀ sk ck : Bool, (knobProcessDrag s d sk ck).1 = s := by
        intro sk ck
        rw [knobProcessDrag_fst, if_pos hg]
      rw [hall, hall, hall, hall]
      refine ⟨by ring, by ring, by ring⟩
    · have hall : ∀ sk ck : Bool,
          (knobProcessDrag s d sk ck).1.rawValue =
            s.rawValue + knobDragDelta s.cfg d sk ck := by
        intro sk ck
        rw [knobProcessDrag_fst, if_neg hg, knobUpdateValue_rawValue, hcl]
      rw [hall, hall, hall, hall]
      refine ⟨?_, ?_, ?_⟩ <;> (simp [knobDragDelta]; try ring)
  · intro t d hcl
    have hall : ∀ sk ck : Bool,
        (sliderProcessDrag t d sk ck).1.rawValue =
          t.rawValue + sliderDragDelta t.cfg d sk ck := by
      intro sk ck
      rw [sliderProcessDrag_fst, sliderUpdateValue_rawValue, hcl]
    rw [hall, hall, hall, hall]
    refine ⟨?_, ?_, ?_⟩ <;> (simp [sliderDragDelta]; try ring)

/-- C7: for a bounded-mode knob with `min < max`, the value-to-angle map
sends `min` to `startAngle` and `max` to `endAngle` exactly. -/
theorem bounded_angle_endpoints (cfg : KnobConfig) (a b : ℚ)
    (hm : cfg.opts.mode = KnobMode.bounded)
    (hmin : cfg.opts.min = some a) (hmax : cfg.opts.max = some b) (hab : a < b) :
    valueToAngle cfg a = cfg.opts.startAngle ∧ valueToAngle cfg b = cfg.opts.endAngle := by
  have hne : b - a ≠ 0 := sub_ne_zero_of_ne hab.ne'
  constructor
  · simp only [valueToAngle, hm, hmin, hmax, Option.getD_some]
    simp
  · simp only [valueToAngle, hm, hmin, hmax, Option.getD_some]
    rw [div_self hne]
    ring

lemma resolveBounds_value (m : MergedKnobOptions) : (resolveBounds m).value = m.value := by
  obtain ⟨mode, v, mn, mx, st, sa, ea, tg, pw⟩ := m
  cases mode <;> rfl

/-- C9: immediately after construction, `getValue()` (and the raw value)
is exactly the constructor-supplied initial value (default 0) with no
clamping to the mode's bounds and no quantization to the step grid, for
the Knob and for the Slider. -/
theorem initial_value_verbatim (o : KnobOptions) (so : SliderOptions)
    (g : GlobalConfig) (v : ℚ) :
    (o.value = some v → (mkKnob o g).value = v ∧ (mkKnob o g).rawValue = v) ∧
    (o.value = none → (mkKnob o g).value = 0 ∧ (mkKnob o g).rawValue = 0) ∧
    (so.value = some v → (mkSlider so g).value = v ∧ (mkSlider so g).rawValue = v) ∧
    (so.value = none → (mkSlider so g).value = 0 ∧ (mkSlider so g).rawValue = 0) := by
  have hkv : (mkKnob o g).value = o.value.getD 0 := by
    show (resolveBounds (mergeKnobOptions o)).value = o.value.getD 0
    rw [resolveBounds_value]
    rfl
  have hkr : (mkKnob o g).rawValue = o.value.getD 0 := by
    show (resolveBounds (mergeKnobOptions o)).value = o.value.getD 0
    rw [resolveBounds_value]
    rfl
  have hsv : (mkSlider so g).value = so.value.getD 0 := rfl
  have hsr : (mkSlider so g).rawValue = so.value.getD 0 := rfl
  refine ⟨?_, ?_, ?_, ?_⟩
  · intro h
    rw [hkv, hkr, h]
    exact ⟨rfl, rfl⟩
  · intro h
    rw [hkv, hkr, h]
    exact ⟨rfl, rfl⟩
  · intro h
    rw [hsv, hsr, h]
    exact ⟨rfl, rfl⟩
  · intro h
    rw [hsv, hsr, h]
    exact ⟨rfl, rfl⟩

/-- C10: power/toggle mutations never change the value pair —
`setPowered` and `toggle` on a Knob, `setToggle` and a toggle click on a
Slider — and `setToggle` with the current state fires no toggle event and
leaves the state unchanged. -/
theorem power_toggle_value_frame (s : KnobState) (p : Bool) (t : SliderState) (b : Bool) :
    (knobSetPowered s p).1.value = s.value ∧
    (knobSetPowered s p).1.rawValue = s.rawValue ∧
    (knobToggle s).1.value = s.value ∧
    (knobToggle s).1.rawValue = s.rawValue ∧
    (sliderSetToggle t b).1.value = t.value ∧
    (sliderSetToggle t b).1.rawValue = t.rawValue ∧
    (sliderHandleToggleClick t).1.value = t.value ∧
    (sliderHandleToggleClick t).1.rawValue = t.rawValue ∧
    (sliderSetToggle t t.toggleState).2 = none ∧
    (sliderSetToggle t t.toggleState).1 = t := by
  refine ⟨?_, ?_, ?_, ?_, ?_, ?_, rfl, rfl, ?_, ?_⟩
  · rw [knobSetPowered_fst]; split <;> rfl
  · rw [knobSetPowered_fst]; split <;> rfl
  · show (knobSetPowered s (!s.powered)).1.value = s.value
    rw [knobSetPowered_fst]; split <;> rfl
  · show (knobSetPowered s (!s.powered)).1.rawValue = s.rawValue
    rw [knobSetPowered_fst]; split <;> rfl
  · rw [sliderSetToggle_fst]; split <;> rfl
  · rw [sliderSetToggle_fst]; split <;> rfl
  · show (if t.toggleState = t.toggleState then (t, (none : Option ToggleChangeEvent))
      else ({ t with toggleState := t.toggleState },
            some { state := t.toggleState, previousState := t.toggleState })).2 = none
    rw [if_pos rfl]
  · show (if t.toggleState = t.toggleState then (t, (none : Option ToggleChangeEvent))
      else ({ t with toggleState := t.toggleState },
            some { state := t.toggleState, previousState := t.toggleState })).1 = t
    rw [if_pos rfl]

/-- C8: sensitivity configuration is snapshotted at construction: a knob
built with no override stores the process-wide defaults in effect at its
own construction, so after `configureKnobs` a newly built knob uses the
updated defaults while the earlier knob's stored configuration — the only
input of its drag-delta computation — still holds the old ones. -/
theorem global_config_snapshot (g : GlobalConfig) (p : GlobalConfigPatch)
    (oA oB : KnobOptions)
    (hA1 : oA.pixelsPerFullRotation = none) (hA2 : oA.shiftMultiplier = none)
    (hA3 : oA.ctrlMultiplier = none)
    (hB1 : oB.pixelsPerFullRotation = none) (hB2 : oB.shiftMultiplier = none)
    (hB3 : oB.ctrlMultiplier = none) :
    (mkKnob oA g).cfg.pixelsPerFullRotation = g.pixelsPerFullRotation ∧
    (mkKnob oA g).cfg.shiftMultiplier = g.shiftMultiplier ∧
    (mkKnob oA g).cfg.ctrlMultiplier = g.ctrlMultiplier ∧
    (mkKnob oB (configureKnobs g p)).cfg.pixelsPerFullRotation =
      (configureKnobs g p).pixelsPerFullRotation ∧
    (mkKnob oB (configureKnobs g p)).cfg.shiftMultiplier =
      (configureKnobs g p).shiftMultiplier ∧
    (mkKnob oB (configureKnobs g p)).cfg.ctrlMultiplier =
      (configureKnobs g p).ctrlMultiplier ∧
    (∀ q : ℚ, p.pixelsPerFullRotation = some q →
       (mkKnob oB (configureKnobs g p)).cfg.pixelsPerFullRotation = q) ∧
    (∀ d : ℚ, knobDragDelta (mkKnob oA g).cfg d false false =
       d / g.pixelsPerFullRotation * knobValueRange (mkKnob oA g).cfg) ∧
    (∀ d : ℚ, knobDragDelta (mkKnob oB (configureKnobs g p)).cfg d false false =
       d / (configureKnobs g p).pixelsPerFullRotation *
         knobValueRange (mkKnob oB (configureKnobs g p)).cfg) := by
  have hAp : (mkKnob oA g).cfg.pixelsPerFullRotation = g.pixelsPerFullRotation := by
    show oA.pixelsPerFullRotation.getD g.pixelsPerFullRotation = g.pixelsPerFullRotation
    rw [hA1]
    rfl
  have hBp : (mkKnob oB (configureKnobs g p)).cfg.pixelsPerFullRotation =
      (configureKnobs g p).pixelsPerFullRotation := by
    show oB.pixelsPerFullRotation.getD (configureKnobs g p).pixelsPerFullRotation =
      (configureKnobs g p).pixelsPerFullRotation
    rw [hB1]
    rfl
  refine ⟨hAp, ?_, ?_, hBp, ?_, ?_, ?_, ?_, ?_⟩
  · show oA.shiftMultiplier.getD g.shiftMultiplier = g.shiftMultiplier
    rw [hA2]; rfl
  · show oA.ctrlMultiplier.getD g.ctrlMultiplier = g.ctrlMultiplier
    rw [hA3]; rfl
  · show oB.shiftMultiplier.getD (configureKnobs g p).shiftMultiplier =
      (configureKnobs g p).shiftMultiplier
    rw [hB2]; rfl
  · show oB.ctrlMultiplier.getD (configureKnobs g p).ctrlMultiplier =
      (configureKnobs g p).ctrlMultiplier
    rw [hB3]; rfl
  · intro q hq
    rw [hBp]
    show p.pixelsPerFullRotation.getD g.pixelsPerFullRotation = q
    rw [hq]
    rfl
  · intro d
    simp [knobDragDelta, hAp]
  · intro d
    simp [knobDragDelta, hBp]

/-- Clamping a quantized value back into the interval it was quantized
from, then re-quantizing, is the identity. -/
lemma quantize_clamp_stable {step lo hi y : ℚ} (hs : 0 < step) (hlh : lo ≤ hi)
    (h1 : lo ≤ y) (h2 : y ≤ hi) :
    quantize step (max lo (min hi (quantize step y))) = quantize step y := by
  rcases le_or_lt (quantize step y) hi with hqh | hqh
  · rw [min_eq_right hqh]
    exact quantize_max_stable hs h1
  · rw [min_eq_left hqh.le, max_eq_right hlh]
    have h := quantize_min_stable hs h2
    rw [min_eq_left hqh.le] at h
    exact h

/-- C6 (amended): in every state whose value pair was produced by the
update path — raw value within the mode's bounds and external value equal
to the quantization of the raw value — `setValue(getValue())` fires no
change notification and preserves the external value, for the Knob
(positive step; `min <= max` in bounded mode) and for the Slider.  (In
the freshly constructed state this can fail: see the counterexample.) -/
theorem setValue_getValue_no_event :
    (∀ s : KnobState, 0 < s.cfg.opts.step →
       (s.cfg.opts.mode = KnobMode.bounded →
          s.cfg.opts.min.getD 0 ≤ s.cfg.opts.max.getD 0) →
       KnobQuantized s →
       (knobSetValue s s.value).2 = none ∧ (knobSetValue s s.value).1.value = s.value) ∧
    (∀ t : SliderState, 0 < t.cfg.opts.step → t.cfg.opts.min ≤ t.cfg.opts.max →
       SliderQuantized t →
       (sliderSetValue t t.value).2 = none ∧ (sliderSetValue t t.value).1.value = t.value) := by
  constructor
  · intro s hs hb hq
    obtain ⟨hv, hbd, hmo⟩ := hq
    have hval : (knobUpdateValue s s.value).value = s.value := by
      rw [knobUpdateValue_value]
      cases hm : s.cfg.opts.mode with
      | infinite =>
          unfold knobClamp
          rw [hm, hv]
          exact (quantize_idem _ _).trans rfl
      | minOnly =>
          unfold knobClamp
          rw [hm, hv]
          exact quantize_max_stable hs (hmo hm)
      | bounded =>
          unfold knobClamp
          rw [hm, hv]
          exact quantize_clamp_stable hs (hb hm) (hbd hm).1 (hbd hm).2
    refine ⟨?_, ?_⟩
    · unfold knobSetValue
      dsimp only
      rw [if_neg (not_ne_iff.mpr hval)]
    · rw [knobSetValue_fst]
      exact hval
  · intro t hs hmm hq
    obtain ⟨hv, h1, h2⟩ := hq
    have hval : (sliderUpdateValue t t.value).value = t.value := by
      rw [sliderUpdateValue_value]
      unfold sliderClamp
      rw [hv]
      exact quantize_clamp_stable hs hmm h1 h2
    refine ⟨?_, ?_⟩
    · unfold sliderSetValue
      dsimp only
      rw [if_neg (not_ne_iff.mpr hval)]
    · rw [sliderSetValue_fst]
      exact hval

/-- C1 (amended): for a positive step (and `min <= max` where a mode has
both bounds), after any update followed by any sequence of operations,
the external value is exactly an integer multiple of the step and lies
within half a step of the raw value, and the raw value respects the
mode's bounds; hence the external value lies within the bounds widened by
`step/2` on each side.  (The external value can genuinely leave `[min,
max]` by up to `step/2`: see the counterexample.) -/
theorem external_value_quantized_and_bounded :
    (∀ (s : KnobState) (x : ℚ) (ops : List KnobOp),
       0 < s.cfg.opts.step →
       (s.cfg.opts.mode = KnobMode.bounded →
          s.cfg.opts.min.getD 0 ≤ s.cfg.opts.max.getD 0) →
       (∃ n : ℤ, (knobRun (knobUpdateValue s x) ops).value = (n : ℚ) * s.cfg.opts.step) ∧
       |(knobRun (knobUpdateValue s x) ops).value -
          (knobRun (knobUpdateValue s x) ops).rawValue| ≤ s.cfg.opts.step / 2 ∧
       (s.cfg.opts.mode = KnobMode.bounded →
          s.cfg.opts.min.getD 0 ≤ (knobRun (knobUpdateValue s x) ops).rawValue ∧
          (knobRun (knobUpdateValue s x) ops).rawValue ≤ s.cfg.opts.max.getD 0 ∧
          s.cfg.opts.min.getD 0 - s.cfg.opts.step / 2 ≤
            (knobRun (knobUpdateValue s x) ops).value ∧
          (knobRun (knobUpdateValue s x) ops).value ≤
            s.cfg.opts.max.getD 0 + s.cfg.opts.step / 2) ∧
       (s.cfg.opts.mode = KnobMode.minOnly →
          s.cfg.opts.min.getD 0 ≤ (knobRun (knobUpdateValue s x) ops).rawValue ∧
          s.cfg.opts.min.getD 0 - s.cfg.opts.step / 2 ≤
            (knobRun (knobUpdateValue s x) ops).value)) ∧
    (∀ (t : SliderState) (y : ℚ) (ops : List SliderOp),
       0 < t.cfg.opts.step →
       t.cfg.opts.min ≤ t.cfg.opts.max →
       (∃ n : ℤ, (sliderRun (sliderUpdateValue t y) ops).value = (n : ℚ) * t.cfg.opts.step) ∧
       |(sliderRun (sliderUpdateValue t y) ops).value -
          (sliderRun (sliderUpdateValue t y) ops).rawValue| ≤ t.cfg.opts.step / 2 ∧
       t.cfg.opts.min ≤ (sliderRun (sliderUpdateValue t y) ops).rawValue ∧
       (sliderRun (sliderUpdateValue t y) ops).rawValue ≤ t.cfg.opts.max ∧
       t.cfg.opts.min - t.cfg.opts.step / 2 ≤ (sliderRun (sliderUpdateValue t y) ops).value ∧
       (sliderRun (sliderUpdateValue t y) ops).value ≤
         t.cfg.opts.max + t.cfg.opts.step / 2) := by
  constructor
  · intro s x ops hs hb
    have hcfg : (knobRun (knobUpdateValue s x) ops).cfg = s.cfg :=
      knobRun_cfg (knobUpdateValue s x) ops
    have hq : KnobQuantized (knobRun (knobUpdateValue s x) ops) :=
      knobRun_quantized ops hb (knobUpdateValue_quantized s x hb)
    obtain ⟨hv, hbd, hmo⟩ := hq
    rw [hcfg] at hv hbd hmo
    have habs : |(knobRun (knobUpdateValue s x) ops).value -
        (knobRun (knobUpdateValue s x) ops).rawValue| ≤ s.cfg.opts.step / 2 := by
      rw [hv]
      exact abs_quantize_sub_le hs _
    have habs' := abs_le.mp habs
    refine ⟨?_, habs, ?_, ?_⟩
    · rw [hv]
      exact quantize_eq_int_mul _ _
    · intro hm
      obtain ⟨hr1, hr2⟩ := hbd hm
      exact ⟨hr1, hr2, by linarith [habs'.1], by linarith [habs'.2]⟩
    · intro hm
      have hr1 := hmo hm
      exact ⟨hr1, by linarith [habs'.1]⟩
  · intro t y ops hs hmm
    have hcfg : (sliderRun (sliderUpdateValue t y) ops).cfg = t.cfg :=
      sliderRun_cfg (sliderUpdateValue t y) ops
    have hq : SliderQuantized (sliderRun (sliderUpdateValue t y) ops) :=
      sliderRun_quantized ops hmm (sliderUpdateValue_quantized t y hmm)
    obtain ⟨hv, h1, h2⟩ := hq
    rw [hcfg] at hv h1 h2
    have habs : |(sliderRun (sliderUpdateValue t y) ops).value -
        (sliderRun (sliderUpdateValue t y) ops).rawValue| ≤ t.cfg.opts.step / 2 := by
      rw [hv]
      exact abs_quantize_sub_le hs _
    have habs' := abs_le.mp habs
    refine ⟨?_, habs, h1, h2, by linarith [habs'.1], by linarith [habs'.2]⟩
    rw [hv]
    exact quantize_eq_int_mul _ _

/-!
Concrete instances: counterexamples and probes.
-/

/-- A bounded knob whose step (4) does not divide the range `[0, 10]`. -/
def quadStepKnob : KnobState :=
  mkKnob { mode := some KnobMode.bounded, min := some 0, max := some 10, step := some 4 }
    initialGlobalConfig

/-- C1 is false as stated: on a bounded knob with `min = 0`, `max = 10`,
`step = 4`, the single call `setValue(10)` leaves the external value at
`round(10/4)*4 = 12`, strictly above `max`. -/
theorem external_value_exceeds_max_cex :
    quadStepKnob.cfg.opts.max = some 10 ∧
    quadStepKnob.cfg.opts.step = 4 ∧
    (knobSetValue quadStepKnob 10).1.value = 12 ∧
    ¬ ((knobSetValue quadStepKnob 10).1.value ≤ 10) := by
  have hr : round ((10:ℚ)/4) = 3 := round_eq_of (by norm_num) (by norm_num)
  have hcl : knobClamp quadStepKnob.cfg 10 = 10 := by
    show max (0:ℚ) (min 10 10) = 10
    norm_num
  have hval : (knobSetValue quadStepKnob 10).1.value = 12 := by
    rw [knobSetValue_fst, knobUpdateValue_value, hcl]
    show ((round ((10:ℚ)/4) : ℤ) : ℚ) * 4 = 12
    rw [hr]
    norm_num
  exact ⟨rfl, rfl, hval, by rw [hval]; norm_num⟩

/-- A default bounded knob constructed with the off-grid initial value
`1/2` (step 1). -/
def halfValueKnob : KnobState := mkKnob { value := some (1/2) } initialGlobalConfig

/-- C6 is false as stated: in the freshly constructed (reachable) state
with initial value `1/2` and step 1, `setValue(getValue())` changes the
external value to 1 and fires a change notification. -/
theorem setValue_getValue_fires_cex :
    halfValueKnob.value = 1/2 ∧
    (knobSetValue halfValueKnob halfValueKnob.value).2 ≠ none ∧
    (knobSetValue halfValueKnob halfValueKnob.value).1.value = 1 := by
  have hv : halfValueKnob.value = 1/2 := by
    show (resolveBounds (mergeKnobOptions _)).value = 1/2
    rw [resolveBounds_value]
    rfl
  have hr : round ((1:ℚ)/2) = 1 := round_eq_of (by norm_num) (by norm_num)
  have hcl : knobClamp halfValueKnob.cfg (1/2) = 1/2 := by
    show max (0:ℚ) (min 10 (1/2)) = 1/2
    norm_num
  have hval : (knobUpdateValue halfValueKnob (1/2)).value = 1 := by
    rw [knobUpdateValue_value, hcl]
    show ((round ((1:ℚ)/2/1) : ℤ) : ℚ) * 1 = 1
    rw [div_one, hr]
    norm_num
  have harg : knobSetValue halfValueKnob halfValueKnob.value =
      knobSetValue halfValueKnob (1/2) := by rw [hv]
  have hcond : (knobUpdateValue halfValueKnob (1/2)).value ≠ halfValueKnob.value := by
    rw [hval, hv]
    norm_num
  have h2 : (knobSetValue halfValueKnob (1/2)).2 ≠ none := by
    unfold knobSetValue
    dsimp only
    rw [if_pos hcond]
    simp
  have h1 : (knobSetValue halfValueKnob (1/2)).1.value = 1 := by
    rw [knobSetValue_fst]
    exact hval
  exact ⟨hv, by rw [harg]; exact h2, by rw [harg]; exact h1⟩

/-- A bounded knob holding the value 5, viewed as a JavaScript-number
state. -/
def nanProbeKnob : KnobStateJS :=
  knobStateToJS
    (mkKnob { mode := some KnobMode.bounded, min := some 0, max := some 10, value := some 5 }
      initialGlobalConfig)

/-- C2: `Slider.setValue` rejects every non-finite argument with no state
change and no notification, but `Knob.setValue` — contrary to the spec —
performs no finiteness check: `setValue(NaN)` on a bounded knob holding 5
overwrites both stored values with NaN and fires a change notification. -/
theorem setValue_nonfinite_validation :
    (∀ t : SliderStateJS,
       sliderSetValueJS t JSNum.nan = (t, false) ∧
       sliderSetValueJS t JSNum.posInf = (t, false) ∧
       sliderSetValueJS t JSNum.negInf = (t, false)) ∧
    nanProbeKnob.value = JSNum.num 5 ∧
    (knobSetValueJS nanProbeKnob JSNum.nan).1.value = JSNum.nan ∧
    (knobSetValueJS nanProbeKnob JSNum.nan).1.rawValue = JSNum.nan ∧
    (knobSetValueJS nanProbeKnob JSNum.nan).2 = true := by
  refine ⟨fun t => ⟨rfl, rfl, rfl⟩, ?_, by decide, by decide, by decide⟩
  show JSNum.num ((resolveBounds (mergeKnobOptions _)).value) = JSNum.num 5
  rw [resolveBounds_value]
  rfl

/-- A bounded knob constructed with the explicit option `step: 0`. -/
def zeroStepKnob : KnobState :=
  mkKnob { mode := some KnobMode.bounded, min := some 0, max := some 10, step := some 0 }
    initialGlobalConfig

/-- C3 is false as stated: an explicitly supplied `step = 0` is neither
rejected nor replaced by a default — it reaches the quantization
`round(raw/step)*step`, which on JavaScript numbers evaluates to NaN
(`5/0 = Infinity`, `Infinity * 0 = NaN`). -/
theorem step_zero_not_defaulted_cex :
    zeroStepKnob.cfg.opts.step = 0 ∧
    ¬ (0 < zeroStepKnob.cfg.opts.step) ∧
    (knobSetValueJS (knobStateToJS zeroStepKnob) (JSNum.num 5)).1.value = JSNum.nan ∧
    (knobSetValueJS (knobStateToJS zeroStepKnob) (JSNum.num 5)).2 = true := by
  refine ⟨rfl, ?_, by decide, by decide⟩
  show ¬ ((0:ℚ) < 0)
  exact lt_irrefl 0

lemma resolveBounds_step (m : MergedKnobOptions) : (resolveBounds m).step = m.step := by
  obtain ⟨mode, v, mn, mx, st, sa, ea, tg, pw⟩ := m
  cases mode <;> rfl

/-- C3 (amended): the `step` option is replaced by the positive default
(1 for the Knob, 0.1 for the Slider) exactly when it is omitted; an
explicitly supplied step — positive or not — is stored verbatim and is
the step the quantization in `updateValue` divides by. -/
theorem step_default_only_when_omitted :
    (∀ (o : KnobOptions) (g : GlobalConfig),
       (o.step = none → (mkKnob o g).cfg.opts.step = 1) ∧
       (∀ q : ℚ, o.step = some q → (mkKnob o g).cfg.opts.step = q)) ∧
    (∀ (so : SliderOptions) (g : GlobalConfig),
       (so.step = none → (mkSlider so g).cfg.opts.step = 1/10) ∧
       (∀ q : ℚ, so.step = some q → (mkSlider so g).cfg.opts.step = q)) ∧
    (∀ (s : KnobState) (x : ℚ),
       (knobUpdateValue s x).value = quantize s.cfg.opts.step (knobClamp s.cfg x)) ∧
    (∀ (t : SliderState) (y : ℚ),
       (sliderUpdateValue t y).value = quantize t.cfg.opts.step (sliderClamp t.cfg y)) := by
  have hk : ∀ (o : KnobOptions) (g : GlobalConfig),
      (mkKnob o g).cfg.opts.step = o.step.getD 1 := by
    intro o g
    show (resolveBounds (mergeKnobOptions o)).step = o.step.getD 1
    rw [resolveBounds_step]
    rfl
  refine ⟨fun o g => ⟨fun h => ?_, fun q h => ?_⟩,
          fun so g => ⟨fun h => ?_, fun q h => ?_⟩,
          fun s x => rfl, fun t y => rfl⟩
  · rw [hk, h]; rfl
  · rw [hk, h]; rfl
  · show so.step.getD (1/10) = 1/10
    rw [h]; rfl
  · show so.step.getD (1/10) = q
    rw [h]; rfl

/-!
Concrete witnesses instantiating the hypothesis-carrying theorems.
-/

/-- A knob built with all-default options (bounded, `[0, 10]`, step 1). -/
def baseKnob : KnobState := mkKnob {} initialGlobalConfig

/-- A slider built with all-default options (`[0, 10]`, step 0.1). -/
def baseSlider : SliderState := mkSlider {} initialGlobalConfig

/-- A toggleable knob constructed powered off. -/
def offKnob : KnobState :=
  mkKnob { toggleable := some true, powered := some false } initialGlobalConfig

theorem knob_toggle_gating_witness :
    offKnob.cfg.opts.toggleable = true ∧ offKnob.powered = false ∧
    (knobRunDrags offKnob [(30, true, false), (-12, false, true)]).value = offKnob.value ∧
    (knobRunDrags offKnob [(30, true, false), (-12, false, true)]).rawValue =
      offKnob.rawValue ∧
    (knobSetPowered offKnob true).1.powered = true ∧
    (knobProcessDrag (knobSetPowered offKnob true).1 30 true false).1 =
      knobUpdateValue (knobSetPowered offKnob true).1
        ((knobSetPowered offKnob true).1.rawValue +
         knobDragDelta (knobSetPowered offKnob true).1.cfg 30 true false) := by
  have h := knob_toggle_gating offKnob rfl rfl
  exact ⟨rfl, rfl, (h.1 _).1, (h.1 _).2, h.2.1, h.2.2 30 true false⟩

/-- An infinite-mode knob (its clamp is the identity). -/
def freeKnob : KnobState := mkKnob { mode := some KnobMode.infinite } initialGlobalConfig

/-- A mid-range slider state on the default configuration. -/
def midSlider : SliderState :=
  { cfg := { opts := { value := 0, min := 0, max := 10, step := 1/10, length := 150,
                       toggleState := false },
             trackLength := 150, shiftMultiplier := 4, ctrlMultiplier := 1/4 },
    value := 5, rawValue := 5, toggleState := false }

theorem modifier_scaling_witness :
    knobClamp freeKnob.cfg (freeKnob.rawValue + knobDragDelta freeKnob.cfg 40 true false) =
      freeKnob.rawValue + knobDragDelta freeKnob.cfg 40 true false ∧
    (knobProcessDrag freeKnob 40 true false).1.rawValue - freeKnob.rawValue =
      freeKnob.cfg.shiftMultiplier *
        ((knobProcessDrag freeKnob 40 false false).1.rawValue - freeKnob.rawValue) ∧
    (knobProcessDrag freeKnob 40 false true).1.rawValue - freeKnob.rawValue =
      freeKnob.cfg.ctrlMultiplier *
        ((knobProcessDrag freeKnob 40 false false).1.rawValue - freeKnob.rawValue) ∧
    (knobProcessDrag freeKnob 40 true true).1.rawValue - freeKnob.rawValue =
      freeKnob.cfg.shiftMultiplier * (freeKnob.cfg.ctrlMultiplier *
        ((knobProcessDrag freeKnob 40 false false).1.rawValue - freeKnob.rawValue)) ∧
    (sliderProcessDrag midSlider 3 true false).1.rawValue - midSlider.rawValue =
      midSlider.cfg.shiftMultiplier *
        ((sliderProcessDrag midSlider 3 false false).1.rawValue - midSlider.rawValue) := by
  have hcl : ∀ sk ck : Bool,
      sliderClamp midSlider.cfg (midSlider.rawValue + sliderDragDelta midSlider.cfg 3 sk ck) =
        midSlider.rawValue + sliderDragDelta midSlider.cfg 3 sk ck := by
    intro sk ck
    cases sk <;> cases ck <;>
      (simp [sliderClamp, sliderDragDelta, midSlider]; norm_num)
  have hknob := modifier_scaling.1 freeKnob 40 (fun sk ck => rfl)
  have hslider := modifier_scaling.2 midSlider 3 hcl
  exact ⟨rfl, hknob.1, hknob.2.1, hknob.2.2, hslider.1⟩

/-- A bounded knob on the sub-range `[2, 8]`. -/
def narrowKnob : KnobState :=
  mkKnob { mode := some KnobMode.bounded, min := some 2, max := some 8 } initialGlobalConfig

theorem bounded_angle_endpoints_witness :
    narrowKnob.cfg.opts.mode = KnobMode.bounded ∧
    narrowKnob.cfg.opts.min = some 2 ∧ narrowKnob.cfg.opts.max = some 8 ∧ (2:ℚ) < 8 ∧
    valueToAngle narrowKnob.cfg 2 = narrowKnob.cfg.opts.startAngle ∧
    valueToAngle narrowKnob.cfg 8 = narrowKnob.cfg.opts.endAngle := by
  have h := bounded_angle_endpoints narrowKnob.cfg 2 8 rfl rfl rfl (by norm_num)
  exact ⟨rfl, rfl, rfl, by norm_num, h.1, h.2⟩

/-- Options carrying an out-of-bounds, off-grid initial value. -/
def oddOptions : KnobOptions :=
  { mode := some KnobMode.bounded, min := some 0, max := some 10, value := some (99/4) }

/-- Slider options carrying an out-of-bounds initial value. -/
def oddSliderOptions : SliderOptions := { value := some 25 }

theorem initial_value_verbatim_witness :
    oddOptions.value = some (99/4) ∧
    (mkKnob oddOptions initialGlobalConfig).value = 99/4 ∧
    (mkKnob oddOptions initialGlobalConfig).rawValue = 99/4 ∧
    oddSliderOptions.value = some 25 ∧
    (mkSlider oddSliderOptions initialGlobalConfig).value = 25 ∧
    (mkSlider oddSliderOptions initialGlobalConfig).rawValue = 25 := by
  have hk := (initial_value_verbatim oddOptions oddSliderOptions initialGlobalConfig (99/4)).1 rfl
  have hs := (initial_value_verbatim oddOptions oddSliderOptions initialGlobalConfig 25).2.2.1 rfl
  exact ⟨rfl, hk.1, hk.2, rfl, hs.1, hs.2⟩

/-- A patch halving the default drag distance. -/
def pprPatch : GlobalConfigPatch := { pixelsPerFullRotation := some 200 }

theorem global_config_snapshot_witness :
    (mkKnob {} initialGlobalConfig).cfg.pixelsPerFullRotation =
      initialGlobalConfig.pixelsPerFullRotation ∧
    (mkKnob {} (configureKnobs initialGlobalConfig pprPatch)).cfg.pixelsPerFullRotation =
      200 := by
  have h := global_config_snapshot initialGlobalConfig pprPatch {} {} rfl rfl rfl rfl rfl rfl
  exact ⟨h.1, h.2.2.2.2.2.2.1 200 rfl⟩

theorem setValue_getValue_no_event_witness :
    0 < baseKnob.cfg.opts.step ∧
    KnobQuantized (knobUpdateValue baseKnob 5) ∧
    (knobSetValue (knobUpdateValue baseKnob 5) (knobUpdateValue baseKnob 5).value).2 = none ∧
    (knobSetValue (knobUpdateValue baseKnob 5) (knobUpdateValue baseKnob 5).value).1.value =
      (knobUpdateValue baseKnob 5).value ∧
    SliderQuantized (sliderUpdateValue baseSlider 5) ∧
    (sliderSetValue (sliderUpdateValue baseSlider 5)
      (sliderUpdateValue baseSlider 5).value).2 = none := by
  have hb : baseKnob.cfg.opts.mode = KnobMode.bounded →
      baseKnob.cfg.opts.min.getD 0 ≤ baseKnob.cfg.opts.max.getD 0 := fun _ => by
    show (0:ℚ) ≤ 10
    norm_num
  have hs : 0 < baseKnob.cfg.opts.step := by
    show (0:ℚ) < 1
    norm_num
  have hq := knobUpdateValue_quantized baseKnob 5 hb
  have hknob := setValue_getValue_no_event.1 (knobUpdateValue baseKnob 5) hs hb hq
  have hss : 0 < baseSlider.cfg.opts.step := by
    show (0:ℚ) < 1/10
    norm_num
  have hsm : baseSlider.cfg.opts.min ≤ baseSlider.cfg.opts.max := by
    show (0:ℚ) ≤ 10
    norm_num
  have hsq := sliderUpdateValue_quantized baseSlider 5 hsm
  have hslider := setValue_getValue_no_event.2 (sliderUpdateValue baseSlider 5) hss hsm hsq
  exact ⟨hs, hq, hknob.1, hknob.2, hsq, hslider.1⟩

theorem external_value_quantized_and_bounded_witness :
    0 < baseKnob.cfg.opts.step ∧
    (∃ n : ℤ,
       (knobRun (knobUpdateValue baseKnob (27/2)) [KnobOp.drag 100 false false]).value =
         (n : ℚ) * baseKnob.cfg.opts.step) ∧
    |(knobRun (knobUpdateValue baseKnob (27/2)) [KnobOp.drag 100 false false]).value -
       (knobRun (knobUpdateValue baseKnob (27/2)) [KnobOp.drag 100 false false]).rawValue| ≤
      baseKnob.cfg.opts.step / 2 ∧
    (baseKnob.cfg.opts.mode = KnobMode.bounded →
       baseKnob.cfg.opts.min.getD 0 ≤
         (knobRun (knobUpdateValue baseKnob (27/2)) [KnobOp.drag 100 false false]).rawValue ∧
       (knobRun (knobUpdateValue baseKnob (27/2)) [KnobOp.drag 100 false false]).rawValue ≤
         baseKnob.cfg.opts.max.getD 0 ∧
       baseKnob.cfg.opts.min.getD 0 - baseKnob.cfg.opts.step / 2 ≤
         (knobRun (knobUpdateValue baseKnob (27/2)) [KnobOp.drag 100 false false]).value ∧
       (knobRun (knobUpdateValue baseKnob (27/2)) [KnobOp.drag 100 false false]).value ≤
         baseKnob.cfg.opts.max.getD 0 + baseKnob.cfg.opts.step / 2) ∧
    0 < baseSlider.cfg.opts.step ∧
    (∃ n : ℤ,
       (sliderRun (sliderUpdateValue baseSlider (7/3)) [SliderOp.set 4]).value =
         (n : ℚ) * baseSlider.cfg.opts.step) ∧
    baseSlider.cfg.opts.min ≤
      (sliderRun (sliderUpdateValue baseSlider (7/3)) [SliderOp.set 4]).rawValue ∧
    (sliderRun (sliderUpdateValue baseSlider (7/3)) [SliderOp.set 4]).rawValue ≤
      baseSlider.cfg.opts.max := by
  have hb : baseKnob.cfg.opts.mode = KnobMode.bounded →
      baseKnob.cfg.opts.min.getD 0 ≤ baseKnob.cfg.opts.max.getD 0 := fun _ => by
    show (0:ℚ) ≤ 10
    norm_num
  have hs : 0 < baseKnob.cfg.opts.step := by
    show (0:ℚ) < 1
    norm_num
  have hknob := external_value_quantized_and_bounded.1 baseKnob (27/2)
    [KnobOp.drag 100 false false] hs hb
  have hss : 0 < baseSlider.cfg.opts.step := by
    show (0:ℚ) < 1/10
    norm_num
  have hsm : baseSlider.cfg.opts.min ≤ baseSlider.cfg.opts.max := by
    show (0:ℚ) ≤ 10
    norm_num
  have hslider := external_value_quantized_and_bounded.2 baseSlider (7/3)
    [SliderOp.set 4] hss hsm
  exact ⟨hs, hknob.1, hknob.2.1, hknob.2.2.1, hss, hslider.1, hslider.2.2.1, hslider.2.2.2.1⟩

theorem step_default_only_when_omitted_witness :
    (mkKnob {} initialGlobalConfig).cfg.opts.step = 1 ∧
    (mkKnob { step := some (-1) } initialGlobalConfig).cfg.opts.step = -1 ∧
    (mkSlider {} initialGlobalConfig).cfg.opts.step = 1/10 ∧
    (mkSlider { step := some 0 } initialGlobalConfig).cfg.opts.step = 0 := by
  refine ⟨(step_default_only_when_omitted.1 {} initialGlobalConfig).1 rfl,
          (step_default_only_when_omitted.1 { step := some (-1) } initialGlobalConfig).2
            (-1) rfl,
          (step_default_only_when_omitted.2.1 {} initialGlobalConfig).1 rfl,
          (step_default_only_when_omitted.2.1 { step := some 0 } initialGlobalConfig).2
            0 rfl⟩

end Knobs
